import Mathlib

/-!
Verification of the quantumkrump measurement-decoding and report-rendering
pipeline (`krump-decoder`, `krump-svg-generator`, `svg-generator`).

The TypeScript sources are shallowly embedded:
* JS objects used as string-keyed maps (`Record<string, number>`) become
  association lists `List (String × _)` in iteration order;
* JS numbers carrying probabilities become `Rat`; measurement counts, which
  the data model constrains to integers, become `Nat`;
* `Array.prototype.sort` with the comparator `(a, b) => b.probability -
  a.probability` (a stable sort, descending by probability) becomes
  `List.mergeSort` (also stable) with the corresponding boolean relation;
* fields that JS leaves `undefined` (spreading a failed table lookup)
  become `Option`;
* strings are `String` / `List Char`.
-/

/-- The `components` record of a krump move
(`src/unnamed/part_002`, lines 263-267). -/
structure KrumpComponents where
  jabStomp : Bool
  armSwing : Bool
  chestPop : Bool
deriving DecidableEq

/-- Interface `KrumpMove` (`src/unnamed/part_002`, lines 257-268). -/
structure KrumpMove where
  bitstring : String
  name : String
  description : String
  energy : Nat
  emoji : String
  components : KrumpComponents
deriving DecidableEq

/-- The static move table `KRUMP_MOVES` (`src/unnamed/part_002`, lines
270-335), as an association list in source order.  JS object property
lookup `KRUMP_MOVES[bitstring]` is modelled by `List.lookup`. -/
def KRUMP_MOVES : List (String × KrumpMove) :=
  [ ("000",
     { bitstring := "000", name := "The Stillness",
       description := "Neutral stance, ready to move",
       energy := 0, emoji := "🕴️",
       components := { jabStomp := false, armSwing := false, chestPop := false } }),
    ("001",
     { bitstring := "001", name := "Chest Pop",
       description := "Sharp chest isolation, controlled power",
       energy := 1, emoji := "💢",
       components := { jabStomp := false, armSwing := false, chestPop := true } }),
    ("010",
     { bitstring := "010", name := "Arm Swing",
       description := "Dynamic arm motion, expressing emotion",
       energy := 1, emoji := "🙌",
       components := { jabStomp := false, armSwing := true, chestPop := false } }),
    ("011",
     { bitstring := "011", name := "Upper Body Flow",
       description := "Swing and pop combined, fluid movement",
       energy := 2, emoji := "🤸",
       components := { jabStomp := false, armSwing := true, chestPop := true } }),
    ("100",
     { bitstring := "100", name := "Stomp",
       description := "Ground connection, powerful foundation",
       energy := 1, emoji := "👟",
       components := { jabStomp := true, armSwing := false, chestPop := false } }),
    ("101",
     { bitstring := "101", name := "Stomp & Pop",
       description := "Ground to chest, explosive vertical energy",
       energy := 2, emoji := "💥",
       components := { jabStomp := true, armSwing := false, chestPop := true } }),
    ("110",
     { bitstring := "110", name := "Stomp & Swing",
       description := "Grounded power with reaching motion",
       energy := 2, emoji := "⚡",
       components := { jabStomp := true, armSwing := true, chestPop := false } }),
    ("111",
     { bitstring := "111", name := "Full Krump",
       description := "Maximum intensity, all elements unleashed",
       energy := 3, emoji := "🔥",
       components := { jabStomp := true, armSwing := true, chestPop := true } }) ]

/-- Interface `DecodedMove` (`src/unnamed/part_002`, lines 337-340).
In JS the record is built by `{...KRUMP_MOVES[bitstring], count,
probability}`; when the lookup fails the spread of `undefined` contributes
no fields, so all move fields are absent together.  That all-or-nothing
shape is `move? : Option KrumpMove`. -/
structure DecodedMove where
  move? : Option KrumpMove
  count : Nat
  probability : Rat
deriving DecidableEq

/-- The probability attached to one decoded entry:
`probabilities[bitstring] || 0` (`src/unnamed/part_002`, line 349).
JS `||` replaces a falsy left operand; on the number values modelled here
the falsy values are a missing key and `0`, both of which yield `0`. -/
def jsProbLookup (probabilities : List (String × Rat)) (bitstring : String) : Rat :=
  match probabilities.lookup bitstring with
  | some p => if p = 0 then 0 else p
  | none => 0

/-- The record built for one `Object.entries(measurements)` entry
(`src/unnamed/part_002`, lines 346-350). -/
def decodeEntry (probabilities : List (String × Rat)) (e : String × Nat) : DecodedMove :=
  { move? := KRUMP_MOVES.lookup e.1
    count := e.2
    probability := jsProbLookup probabilities e.1 }

/-- The comparator `(a, b) => b.probability - a.probability` of
`src/unnamed/part_002`, line 350, as the boolean order relation used by a
stable sort: `a` may stay before `b` exactly when the comparator is
non-positive, i.e. `b.probability ≤ a.probability`. -/
def krumpLe (a b : DecodedMove) : Bool :=
  decide (b.probability ≤ a.probability)

/-- `decodeKrumpResults` (`src/unnamed/part_002`, lines 342-351):
map every measurement entry to a `DecodedMove`, then stable-sort by
descending probability. -/
def decodeKrumpResults (measurements : List (String × Nat))
    (probabilities : List (String × Rat)) : List DecodedMove :=
  (measurements.map (decodeEntry probabilities)).mergeSort krumpLe

/-- `getSuggestedRoutine` (`src/unnamed/part_002`, lines 363-365):
`decodedMoves.slice(0, topN)`.  The `topN` argument is modelled as a
natural number (all call sites pass `5` or use the default `5`), for which
`slice(0, topN)` is `List.take`. -/
def getSuggestedRoutine (decodedMoves : List DecodedMove) (topN : Nat := 5) :
    List DecodedMove :=
  decodedMoves.take topN

/-- The energy of a decoded move as used in numeric contexts
(`move.energy`).  When the move is unmapped, JS reads `undefined` and any
arithmetic on it produces `NaN`; `Rat` has no `NaN`, so this accessor
returns `0` there and theorems about energy arithmetic carry the
hypothesis that every record's move is mapped. -/
def moveEnergyQ (d : DecodedMove) : Rat :=
  match d.move? with
  | some m => (m.energy : Rat)
  | none => 0

/-- The canonical (guarded) average-energy computation
(`src/unnamed/part_001`, lines 65-67 and
`src/src/lib/krump-svg-generator.ts`, lines 86-88):
`Σ probability > 0 ? Σ (energy × probability) : 0`. -/
def averageEnergy (decodedMoves : List DecodedMove) : Rat :=
  if 0 < (decodedMoves.map (fun d => d.probability)).sum then
    (decodedMoves.map (fun d => moveEnergyQ d * d.probability)).sum
  else 0

/-! ### Helper lemmas about the decoder -/

lemma jsProbLookup_eq_getD (p : List (String × Rat)) (b : String) :
    jsProbLookup p b = (p.lookup b).getD 0 := by
  unfold jsProbLookup
  cases h : p.lookup b with
  | none => rfl
  | some q =>
    simp only [Option.getD_some]
    by_cases hq : q = 0
    · simp [hq]
    · simp [hq]

lemma decodeKrumpResults_perm (m : List (String × Nat)) (p : List (String × Rat)) :
    (decodeKrumpResults m p).Perm (m.map (decodeEntry p)) :=
  List.mergeSort_perm (m.map (decodeEntry p)) krumpLe

lemma decodeEntry_count (p : List (String × Rat)) (e : String × Nat) :
    (decodeEntry p e).count = e.2 := rfl

/-! ### Claim theorems about the decoder -/

/-- Claim C2: for every measurements map and probabilities map, the list
returned by `decodeKrumpResults` is sorted in descending order of
probability: every adjacent pair satisfies
`probability[i] ≥ probability[i+1]` (stated with `List.Chain'`, which is
exactly the adjacent-pairs relation). -/
theorem decodeKrumpResults_sorted_desc (measurements : List (String × Nat))
    (probabilities : List (String × Rat)) :
    List.Chain' (fun a b => b.probability ≤ a.probability)
      (decodeKrumpResults measurements probabilities) := by
  apply List.Pairwise.chain'
  have htrans : ∀ a b c : DecodedMove, krumpLe a b = true → krumpLe b c = true →
      krumpLe a c = true := by
    intro a b c hab hbc
    simp only [krumpLe, decide_eq_true_eq] at *
    exact le_trans hbc hab
  have htotal : ∀ a b : DecodedMove, (krumpLe a b || krumpLe b a) = true := by
    intro a b
    simp only [krumpLe, Bool.or_eq_true, decide_eq_true_eq]
    exact le_total b.probability a.probability
  have h := @List.sorted_mergeSort DecodedMove krumpLe htrans htotal
    (measurements.map (decodeEntry probabilities))
  exact h.imp (fun hab => by
    simpa only [krumpLe, decide_eq_true_eq] using hab)

/-- Claim C4: `decodeKrumpResults` returns exactly one record per entry of
the measurements map (so in particular one per key); each record carries
that entry's count, and its probability is the value found in the
probabilities map under the same bitstring, or `0` when the bitstring is
absent there (the two maps need not have identical key sets).  The output
is the stated multiset of records (a permutation, since the list is then
sorted). -/
theorem decodeKrumpResults_entries (measurements : List (String × Nat))
    (probabilities : List (String × Rat)) :
    (decodeKrumpResults measurements probabilities).length = measurements.length ∧
    (decodeKrumpResults measurements probabilities).Perm
      (measurements.map (fun e =>
        { move? := KRUMP_MOVES.lookup e.1
          count := e.2
          probability := (probabilities.lookup e.1).getD 0 : DecodedMove })) := by
  have hfun : (decodeEntry probabilities) = (fun e : String × Nat =>
      { move? := KRUMP_MOVES.lookup e.1
        count := e.2
        probability := (probabilities.lookup e.1).getD 0 : DecodedMove }) := by
    funext e
    simp only [decodeEntry, jsProbLookup_eq_getD]
  have hperm := decodeKrumpResults_perm measurements probabilities
  rw [hfun] at hperm
  exact ⟨by simpa using hperm.length_eq, hperm⟩

/-- Claim C5: the decoder preserves the total count: whenever the counts of
the measurements map sum to `shots`, the counts of the decoded records also
sum to `shots`. -/
theorem decodeKrumpResults_counts_sum (measurements : List (String × Nat))
    (probabilities : List (String × Rat)) (shots : Nat)
    (h : (measurements.map Prod.snd).sum = shots) :
    ((decodeKrumpResults measurements probabilities).map DecodedMove.count).sum
      = shots := by
  have hperm := (decodeKrumpResults_perm measurements probabilities).map
    DecodedMove.count
  rw [hperm.sum_eq, List.map_map]
  have : (DecodedMove.count ∘ decodeEntry probabilities) = Prod.snd := by
    funext e
    rfl
  rw [this, h]

/-- Witness for C5 at a concrete input whose counts sum to 5. -/
theorem decodeKrumpResults_counts_sum_witness :
    ((decodeKrumpResults [("000", 2), ("111", 3)] []).map DecodedMove.count).sum
      = 5 :=
  decodeKrumpResults_counts_sum [("000", 2), ("111", 3)] [] 5 (by decide)

/-- Claim C3: a bitstring without an entry in `KRUMP_MOVES` does not make
`decodeKrumpResults` fail (the embedding is a total function and the
source throws nothing: spreading the `undefined` lookup result merely
contributes no fields): the output still has a record for that entry whose
`count` and `probability` come from the inputs but whose move fields
(name, description, energy, emoji, components) are all absent
(`move? = none`). -/
theorem decodeKrumpResults_unmapped (measurements : List (String × Nat))
    (probabilities : List (String × Rat)) (b : String) (c : Nat)
    (hmem : (b, c) ∈ measurements)
    (hun : KRUMP_MOVES.lookup b = none) :
    ∃ d ∈ decodeKrumpResults measurements probabilities,
      d.move? = none ∧ d.count = c ∧
      d.probability = (probabilities.lookup b).getD 0 := by
  refine ⟨decodeEntry probabilities (b, c), ?_, ?_, rfl, ?_⟩
  · exact ((decodeKrumpResults_perm measurements probabilities).mem_iff).2
      (List.mem_map_of_mem (decodeEntry probabilities) hmem)
  · simpa only [decodeEntry] using hun
  · exact jsProbLookup_eq_getD probabilities b

/-- Witness for C3: the 4-bit string "0000" is not a key of the 3-bit
table; decoding still yields its record. -/
theorem decodeKrumpResults_unmapped_witness :
    ∃ d ∈ decodeKrumpResults [("0000", 7)] [("0000", (1 : Rat) / 3)],
      d.move? = none ∧ d.count = 7 ∧
      d.probability = (([("0000", (1 : Rat) / 3)]).lookup "0000").getD 0 :=
  decodeKrumpResults_unmapped [("0000", 7)] [("0000", (1 : Rat) / 3)] "0000" 7
    (by decide) (by decide)

/-- Claim C8: `getSuggestedRoutine decoded n` is the prefix of the first
`min n decoded.length` elements of the (already sorted) input list; when
the list has fewer than `n` elements the whole list is returned, and an
out-of-range `n` never causes an error (the function is total). -/
theorem getSuggestedRoutine_take (decoded : List DecodedMove) (n : Nat) :
    getSuggestedRoutine decoded n = decoded.take n ∧
    (getSuggestedRoutine decoded n).length = min n decoded.length ∧
    (∃ t, getSuggestedRoutine decoded n ++ t = decoded) ∧
    (decoded.length ≤ n → getSuggestedRoutine decoded n = decoded) := by
  refine ⟨rfl, List.length_take n decoded, ⟨decoded.drop n, ?_⟩, fun h => ?_⟩
  · exact List.take_append_drop n decoded
  · exact List.take_of_length_le h

/-- Witness for C8 on a one-element list with `n = 5 > length`. -/
theorem getSuggestedRoutine_take_witness :
    getSuggestedRoutine [({ move? := none, count := 1, probability := 0 })] 5
        = List.take 5 [({ move? := none, count := 1, probability := 0 : DecodedMove })] ∧
    getSuggestedRoutine [({ move? := none, count := 1, probability := 0 })] 5
        = [({ move? := none, count := 1, probability := 0 : DecodedMove })] :=
  ⟨(getSuggestedRoutine_take _ 5).1,
   (getSuggestedRoutine_take _ 5).2.2.2 (by decide)⟩

/-- Claim C10: the static `KRUMP_MOVES` table is keyed by exactly the eight
3-bit strings, in binary order; every entry's `bitstring` field equals its
key, its `energy` is the number of `'1'` characters of the key, and the
`jabStomp`/`armSwing`/`chestPop` component flags are exactly whether the
first/second/third character of the key is `'1'`. -/
theorem KRUMP_MOVES_wellformed :
    KRUMP_MOVES.map Prod.fst
        = ["000", "001", "010", "011", "100", "101", "110", "111"] ∧
    ∀ e ∈ KRUMP_MOVES,
      e.2.bitstring = e.1 ∧
      e.2.energy = e.1.data.count '1' ∧
      (e.2.components.jabStomp = true ↔ e.1.data[0]? = some '1') ∧
      (e.2.components.armSwing = true ↔ e.1.data[1]? = some '1') ∧
      (e.2.components.chestPop = true ↔ e.1.data[2]? = some '1') := by
  decide

/-- Claim C6: the average energy — the probability-weighted energy sum,
defined as `0` when the probabilities sum to `0` (in particular on the
empty list) — lies between `0` and `3` inclusive, for every list of
decoded moves satisfying the data-model invariants: probabilities
non-negative and forming a convex weighting (sum at most 1), and every
record's move mapped with energy at most 3. -/
theorem averageEnergy_bounds (decoded : List DecodedMove)
    (hprob : ∀ d ∈ decoded, 0 ≤ d.probability)
    (hsum : (decoded.map (fun d => d.probability)).sum ≤ 1)
    (hmov : ∀ d ∈ decoded, ∃ m, d.move? = some m ∧ m.energy ≤ 3) :
    0 ≤ averageEnergy decoded ∧ averageEnergy decoded ≤ 3 := by
  unfold averageEnergy
  split
  · constructor
    · apply List.sum_nonneg
      intro x hx
      obtain ⟨d, hd, rfl⟩ := List.mem_map.1 hx
      apply mul_nonneg _ (hprob d hd)
      cases hm : d.move? with
      | none => simp [moveEnergyQ, hm]
      | some m =>
        simp only [moveEnergyQ, hm]
        exact_mod_cast Nat.zero_le m.energy
    · have hle : (decoded.map (fun d => moveEnergyQ d * d.probability)).sum
          ≤ (decoded.map (fun d => 3 * d.probability)).sum := by
        apply List.sum_le_sum
        intro d hd
        apply mul_le_mul_of_nonneg_right _ (hprob d hd)
        obtain ⟨m, hm, hme⟩ := hmov d hd
        simp only [moveEnergyQ, hm]
        exact_mod_cast hme
      calc (decoded.map (fun d => moveEnergyQ d * d.probability)).sum
          ≤ (decoded.map (fun d => 3 * d.probability)).sum := hle
        _ = 3 * (decoded.map (fun d => d.probability)).sum := by
            rw [← List.sum_map_mul_left]
        _ ≤ 3 * 1 := by
            apply mul_le_mul_of_nonneg_left hsum
            norm_num
        _ = 3 := by norm_num
  · exact ⟨le_refl 0, by norm_num⟩

/-- Witness for C6: one fully-mapped record ("111", count 3) at
probability 1. -/
theorem averageEnergy_bounds_witness :
    0 ≤ averageEnergy [decodeEntry [("111", (1 : Rat))] ("111", 3)] ∧
    averageEnergy [decodeEntry [("111", (1 : Rat))] ("111", 3)] ≤ 3 :=
  averageEnergy_bounds _ (by decide)
    (by simp [decodeEntry, jsProbLookup, List.lookup])
    (by
      intro d hd
      rw [List.mem_singleton] at hd
      subst hd
      exact ⟨_, rfl, by decide⟩)

/-! ### The XML escaping helper (`escapeXml`)

`escapeXml` (`src/src/lib/krump-svg-generator.ts` lines 13-21,
`src/unnamed/part_001` lines 10-18, `src/unnamed/part_002` lines 373-381):
five sequential global single-character replacements, ampersand first.
Strings are modelled at the character-list level; a global regex
replacement of a single character is a per-character substitution. -/

/-- One global single-character replacement `.replace(/c/g, r)`. -/
def replaceChar (c : Char) (r : List Char) : List Char → List Char
  | [] => []
  | x :: xs => (if x = c then r else [x]) ++ replaceChar c r xs

/-- Replacement text for an ampersand. -/
def ampR : List Char := ['&', 'a', 'm', 'p', ';']

/-- Replacement text for a less-than sign. -/
def ltR : List Char := ['&', 'l', 't', ';']

/-- Replacement text for a greater-than sign. -/
def gtR : List Char := ['&', 'g', 't', ';']

/-- Replacement text for a double quote. -/
def quotR : List Char := ['&', 'q', 'u', 'o', 't', ';']

/-- Replacement text for an apostrophe. -/
def aposR : List Char := ['&', 'a', 'p', 'o', 's', ';']

/-- The replacement pipeline of `escapeXml`, in source order: `&`, then
`<`, `>`, `"` (codepoint 34) and `'` (codepoint 39). -/
def escapeXml (s : List Char) : List Char :=
  replaceChar (Char.ofNat 39) aposR
    (replaceChar (Char.ofNat 34) quotR
      (replaceChar '>' gtR
        (replaceChar '<' ltR
          (replaceChar '&' ampR s))))

/-- `escapeXml` on `String`, including the leading falsy guard
`if (!str) return ''` (for an actual string argument the only falsy value
is the empty string, on which the guard agrees with the pipeline). -/
def escapeXmlS (s : String) : String :=
  if s = "" then "" else String.mk (escapeXml s.data)

/-- What `escapeXml` does to a single character. -/
def escChar (x : Char) : List Char :=
  if x = '&' then ampR
  else if x = '<' then ltR
  else if x = '>' then gtR
  else if x = Char.ofNat 34 then quotR
  else if x = Char.ofNat 39 then aposR
  else [x]

/-- The five entity bodies that may legitimately follow an `&` in escaped
output. -/
def entityTails : List (List Char) :=
  [['a', 'm', 'p', ';'], ['l', 't', ';'], ['g', 't', ';'],
   ['q', 'u', 'o', 't', ';'], ['a', 'p', 'o', 's', ';']]

/-- Boolean test that `p` is an initial segment of `s`. -/
def hasPrefixL : List Char → List Char → Bool
  | [], _ => true
  | _ :: _, [] => false
  | p :: ps, x :: xs => (x == p) && hasPrefixL ps xs

/-- Does `s` start with one of the five entity bodies? -/
def startsWithEntityTail (s : List Char) : Bool :=
  entityTails.any (fun t => hasPrefixL t s)

/-- "No raw instance of `& < > \x22 \x27`": the characters `<`, `>`, `\x22`
and `\x27` may not occur at all, and every `&` must begin one of the five
entity escapes. -/
def noRawSpecial : List Char → Bool
  | [] => true
  | x :: xs =>
    if x = '<' ∨ x = '>' ∨ x = Char.ofNat 34 ∨ x = Char.ofNat 39 then false
    else if x = '&' then startsWithEntityTail xs && noRawSpecial xs
    else noRawSpecial xs

/-! ### Helper lemmas about escaping -/

lemma replaceChar_append (c : Char) (r : List Char) (a b : List Char) :
    replaceChar c r (a ++ b) = replaceChar c r a ++ replaceChar c r b := by
  induction a with
  | nil => rfl
  | cons x xs ih => simp [replaceChar, ih]

lemma escapeXml_append (a b : List Char) :
    escapeXml (a ++ b) = escapeXml a ++ escapeXml b := by
  unfold escapeXml
  rw [replaceChar_append, replaceChar_append, replaceChar_append,
    replaceChar_append, replaceChar_append]

lemma escapeXml_singleton (x : Char) : escapeXml [x] = escChar x := by
  by_cases h1 : x = '&'
  · subst h1; rfl
  by_cases h2 : x = '<'
  · subst h2; rfl
  by_cases h3 : x = '>'
  · subst h3; rfl
  by_cases h4 : x = Char.ofNat 34
  · subst h4; rfl
  by_cases h5 : x = Char.ofNat 39
  · subst h5; rfl
  unfold escapeXml escChar
  simp [replaceChar, h1, h2, h3, h4, h5]

lemma escapeXml_cons (x : Char) (s : List Char) :
    escapeXml (x :: s) = escChar x ++ escapeXml s := by
  have : x :: s = [x] ++ s := rfl
  rw [this, escapeXml_append, escapeXml_singleton]

lemma noRawSpecial_amp (t : List Char) :
    noRawSpecial (ampR ++ t) = noRawSpecial t := rfl

lemma noRawSpecial_lt (t : List Char) :
    noRawSpecial (ltR ++ t) = noRawSpecial t := rfl

lemma noRawSpecial_gt (t : List Char) :
    noRawSpecial (gtR ++ t) = noRawSpecial t := rfl

lemma noRawSpecial_quot (t : List Char) :
    noRawSpecial (quotR ++ t) = noRawSpecial t := rfl

lemma noRawSpecial_apos (t : List Char) :
    noRawSpecial (aposR ++ t) = noRawSpecial t := rfl

lemma noRawSpecial_cons_safe (x : Char) (xs : List Char)
    (h1 : ¬(x = '<' ∨ x = '>' ∨ x = Char.ofNat 34 ∨ x = Char.ofNat 39))
    (h2 : x ≠ '&') :
    noRawSpecial (x :: xs) = noRawSpecial xs := by
  conv_lhs => rw [noRawSpecial]
  rw [if_neg h1, if_neg h2]

lemma noRawSpecial_escapeXml (s : List Char) :
    noRawSpecial (escapeXml s) = true := by
  induction s with
  | nil => rfl
  | cons x xs ih =>
    rw [escapeXml_cons]
    by_cases h1 : x = '&'
    · rw [show escChar x = ampR from by subst h1; rfl, noRawSpecial_amp]; exact ih
    by_cases h2 : x = '<'
    · rw [show escChar x = ltR from by subst h2; rfl, noRawSpecial_lt]; exact ih
    by_cases h3 : x = '>'
    · rw [show escChar x = gtR from by subst h3; rfl, noRawSpecial_gt]; exact ih
    by_cases h4 : x = Char.ofNat 34
    · rw [show escChar x = quotR from by subst h4; rfl, noRawSpecial_quot]
      exact ih
    by_cases h5 : x = Char.ofNat 39
    · rw [show escChar x = aposR from by subst h5; rfl, noRawSpecial_apos]
      exact ih
    have hx : escChar x = [x] := by simp [escChar, h1, h2, h3, h4, h5]
    rw [hx, List.singleton_append,
      noRawSpecial_cons_safe x (escapeXml xs) (by simp [h2, h3, h4, h5]) h1]
    exact ih

lemma escapeXml_id_of_safe (s : List Char)
    (h : ∀ c ∈ s, c ≠ '&' ∧ c ≠ '<' ∧ c ≠ '>' ∧
      c ≠ Char.ofNat 34 ∧ c ≠ Char.ofNat 39) :
    escapeXml s = s := by
  induction s with
  | nil => rfl
  | cons x xs ih =>
    rw [escapeXml_cons]
    obtain ⟨h1, h2, h3, h4, h5⟩ := h x (List.mem_cons_self x xs)
    have hx : escChar x = [x] := by simp [escChar, h1, h2, h3, h4, h5]
    rw [hx, List.singleton_append,
      ih (fun c hc => h c (List.mem_cons_of_mem x hc))]

/-- Claim C7: for every input string, the output of `escapeXml` contains
no raw instance of the five reserved characters (`noRawSpecial`: none of
`< > \x22 \x27` occurs, and every `&` begins one of the five entity
escapes); and a string containing none of those five characters is
returned unchanged. -/
theorem escapeXml_no_raw_and_id (s : String) :
    noRawSpecial ((escapeXmlS s).data) = true ∧
    ((∀ c ∈ s.data, c ≠ '&' ∧ c ≠ '<' ∧ c ≠ '>' ∧
        c ≠ Char.ofNat 34 ∧ c ≠ Char.ofNat 39) →
      escapeXmlS s = s) := by
  constructor
  · unfold escapeXmlS
    split
    · rfl
    · exact noRawSpecial_escapeXml s.data
  · intro h
    unfold escapeXmlS
    split
    · rename_i he
      rw [he]
    · rw [escapeXml_id_of_safe s.data h]

/-- Witness for C7 at the safe string "hello". -/
theorem escapeXml_no_raw_and_id_witness :
    noRawSpecial ((escapeXmlS "hello").data) = true ∧
    escapeXmlS "hello" = "hello" :=
  ⟨(escapeXml_no_raw_and_id "hello").1,
   (escapeXml_no_raw_and_id "hello").2 (by decide)⟩

/-! ### The unescaped renderer variant (`src/unnamed/part_002`, `generateKrumpSVG`)

The part_002 module defines no `escapeXml` at all; its template
interpolates user-supplied text directly. -/

/-- Boolean substring test: does `needle` occur contiguously in `hay`? -/
def containsSub (needle hay : List Char) : Bool :=
  (List.range (hay.length + 1)).any (fun i => hasPrefixL needle (hay.drop i))

/-- The metadata `<text>` elements of the part_002 `generateKrumpSVG`
template (`src/unnamed/part_002`, lines 104-110), with the constant
`chartWidth / 2 = 700 / 2` rendered as `350` as JS does:
`circuit`, `backend` and `timestamp` are interpolated with no escaping. -/
def krumpMetadataText_part002 (circuit : String) (shots : Nat)
    (backend : String) (timestamp : String) : String :=
  "  <text x=\"350\" y=\"60\" text-anchor=\"middle\" font-size=\"14\" fill=\"#666666\">\n    Circuit: "
    ++ circuit ++ " | Shots: " ++ toString shots ++ " | Backend: " ++ backend
    ++ "\n  </text>\n  <text x=\"350\" y=\"80\" text-anchor=\"middle\" font-size=\"12\" fill=\"#999999\">\n    "
    ++ timestamp ++ "\n  </text>"

/-- The move-description `<text>` element of a part_002 move card
(`src/unnamed/part_002`, line 155): `move.description` is interpolated
with no escaping. -/
def krumpMoveDescriptionText_part002 (description : String) : String :=
  "      <text x=\"20\" y=\"165\" font-size=\"10\" fill=\"#999999\">"
    ++ description ++ "</text>"

set_option maxRecDepth 8000 in
/-- Claim C1 is violated by the part_002 renderer variant: with the
user-supplied circuit name "<script>" (and a move description carrying
markup), the raw reserved characters of the input appear verbatim in the
emitted document text, because this variant never escapes them.  The two
sibling variants (part_001 and `krump-svg-generator.ts`) do escape, so the
spec's hard requirement is the intent and this variant is the slip. -/
theorem generateKrumpSVG_part002_unescaped :
    containsSub ("Circuit: <script>".data)
        ((krumpMetadataText_part002 "<script>" 0 "simulator" "t").data) = true ∧
    containsSub ("<img src=x>".data)
        ((krumpMoveDescriptionText_part002 "<img src=x>").data) = true := by
  decide

/-! ### The synchronous themed renderer (`src/unnamed/part_001`, `generateKrumpSVG`)

The renderer is a pure function of its inputs plus a handful of ambient
JS facilities: float-to-string rendering for template interpolation,
`Number#toFixed`, `Date#toLocaleString` (locale and timezone), `Math.PI`,
`Math.cos`, `Math.sin`, and the wall clock.  Those ambient facilities are
fixed during a session, so they are passed in as explicit parameters: a
`JsEnv` value, and the `now` string that `new Date().toLocaleString()`
would produce at call time. -/

/-- The ambient JS facilities the renderer reads. -/
structure JsEnv where
  numStr : Rat → String
  toFixed : Rat → Nat → String
  localeString : String → String
  piQ : Rat
  cosQ : Rat → Rat
  sinQ : Rat → Rat

/-- JS `Math.round`: floor of `x + 1/2`. -/
def jsRound (q : Rat) : Int := Int.floor (q + 1 / 2)

/-- JS `Math.ceil`. -/
def jsCeil (q : Rat) : Int := Int.ceil q

/-- JS `a || d` on an optional number: `undefined` and `0` are falsy. -/
def jsNumOr (v : Option Nat) (d : Nat) : Nat :=
  match v with
  | some n => if n = 0 then d else n
  | none => d

/-- JS `a || d` on an optional string: `undefined` and the empty string
are falsy. -/
def jsStrOr (v : Option String) (d : String) : String :=
  match v with
  | some s => if s = "" then d else s
  | none => d

/-- The fields of the `results: any` payload that the krump renderers read
(`src/unnamed/part_001`, lines 51-54). -/
structure KrumpResults where
  measurements : Option (List (String × Nat))
  probabilities : Option (List (String × Rat))
  shots : Option Nat
  circuit : Option String

/-- Interface `KrumpJobMetadata` (`src/unnamed/part_001`, lines 3-8). -/
structure KrumpJobMetadata where
  circuit : Option String
  shots : Option Nat
  created_at : Option String
  backend_type : Option String

/-- `escapeXml` applied at a call site whose argument may be `undefined`:
the guard `if (!str) return ''` maps both `undefined` and the empty
string to the empty string. -/
def escapeXmlJS (s? : Option String) : String :=
  match s? with
  | some s => escapeXmlS s
  | none => ""

/-- `move.energy` as a JS value: absent (`undefined`) when the move is
unmapped.  The energy-switch helpers below treat `none` like JS treats
`undefined`: no case matches and the default branch is taken. -/
def DecodedMove.energyLevel? (d : DecodedMove) : Option Int :=
  d.move?.map (fun m => (m.energy : Int))

/-- `move.name`, absent when the move is unmapped. -/
def DecodedMove.name? (d : DecodedMove) : Option String :=
  d.move?.map (fun m => m.name)

/-- `move.emoji`, absent when the move is unmapped. -/
def DecodedMove.emoji? (d : DecodedMove) : Option String :=
  d.move?.map (fun m => m.emoji)

/-- `move.components.jabStomp` (`src/unnamed/part_001`, line 205).  With
an unmapped move JS would fault reading a property of `undefined`; the
model returns `false` there. -/
def DecodedMove.jabStompB (d : DecodedMove) : Bool :=
  match d.move? with
  | some m => m.components.jabStomp
  | none => false

/-- `move.components.armSwing` (`src/unnamed/part_001`, line 208). -/
def DecodedMove.armSwingB (d : DecodedMove) : Bool :=
  match d.move? with
  | some m => m.components.armSwing
  | none => false

/-- `move.components.chestPop` (`src/unnamed/part_001`, line 211). -/
def DecodedMove.chestPopB (d : DecodedMove) : Bool :=
  match d.move? with
  | some m => m.components.chestPop
  | none => false

/-- The comparison `ei <= move.energy` (`src/unnamed/part_001`, line 199);
a JS comparison with `undefined` is false. -/
def leEnergy (ei : Nat) (d : DecodedMove) : Bool :=
  match d.move? with
  | some m => decide (ei ≤ m.energy)
  | none => false

/-- `getEnergyColor` (`src/unnamed/part_001`, lines 20-28); the switch
falls through to the default on anything but 0-3, including `undefined`. -/
def getEnergyColor (energy : Option Int) : String :=
  if energy = some 0 then "#94a3b8"
  else if energy = some 1 then "#10b981"
  else if energy = some 2 then "#f59e0b"
  else if energy = some 3 then "#f43f5e"
  else "#94a3b8"

/-- `getEnergyGradient` (`src/unnamed/part_001`, lines 30-38). -/
def getEnergyGradient (energy : Option Int) : String :=
  if energy = some 0 then "url(#energyGradient0)"
  else if energy = some 1 then "url(#energyGradient1)"
  else if energy = some 2 then "url(#energyGradient2)"
  else if energy = some 3 then "url(#energyGradient3)"
  else "url(#energyGradient0)"

/-- `getEnergyEmoji` (`src/unnamed/part_001`, lines 40-48). -/
def getEnergyEmoji (energy : Option Int) : String :=
  if energy = some 0 then "💤"
  else if energy = some 1 then "⚡"
  else if energy = some 2 then "🔥"
  else if energy = some 3 then "💥"
  else "💤"

/-- The `energyDist` accumulation (`src/unnamed/part_001`, lines 70-73):
the summed probability of the decoded moves at each energy level 0-3.
(A record with an unmapped move would in JS accumulate under a separate
"undefined" key; such records contribute to no numeric level here, and
the donut section iterates the four numeric levels of the literal.) -/
def energyDistQ (decodedMoves : List DecodedMove) (e : Nat) : Rat :=
  ((decodedMoves.filter (fun d => d.move?.map (fun m => m.energy) = some e)).map
    (fun d => d.probability)).sum

/-- `timestamp` (`src/unnamed/part_001`, lines 55-57):
`jobMetadata?.created_at ? new Date(...).toLocaleString() : new
Date().toLocaleString()`.  A missing metadata object, a missing
`created_at` and an empty (falsy) `created_at` all fall back to the wall
clock rendering `now`. -/
def timestampOf (env : JsEnv) (now : String)
    (jobMetadata : Option KrumpJobMetadata) : String :=
  match jobMetadata.bind (fun m => m.created_at) with
  | some s => if s = "" then now else env.localeString s
  | none => now

/-- The static `<defs>` block of the part_001 template (lines 92-130). -/
def krumpDefs_part001 : String :=
  "  <!-- Premium Gradient Definitions -->\n  <defs>\n    <!-- Energy Level Gradients -->\n"
    ++ "    <linearGradient id=\"energyGradient0\" x1=\"0%\" y1=\"0%\" x2=\"100%\" y2=\"100%\">\n"
    ++ "      <stop offset=\"0%\" style=\"stop-color:#cbd5e1;stop-opacity:0.2\" />\n"
    ++ "      <stop offset=\"100%\" style=\"stop-color:#94a3b8;stop-opacity:0.3\" />\n"
    ++ "    </linearGradient>\n"
    ++ "    <linearGradient id=\"energyGradient1\" x1=\"0%\" y1=\"0%\" x2=\"100%\" y2=\"100%\">\n"
    ++ "      <stop offset=\"0%\" style=\"stop-color:#10b981;stop-opacity:0.15\" />\n"
    ++ "      <stop offset=\"100%\" style=\"stop-color:#059669;stop-opacity:0.25\" />\n"
    ++ "    </linearGradient>\n"
    ++ "    <linearGradient id=\"energyGradient2\" x1=\"0%\" y1=\"0%\" x2=\"100%\" y2=\"100%\">\n"
    ++ "      <stop offset=\"0%\" style=\"stop-color:#f59e0b;stop-opacity:0.15\" />\n"
    ++ "      <stop offset=\"100%\" style=\"stop-color:#d97706;stop-opacity:0.25\" />\n"
    ++ "    </linearGradient>\n"
    ++ "    <linearGradient id=\"energyGradient3\" x1=\"0%\" y1=\"0%\" x2=\"100%\" y2=\"100%\">\n"
    ++ "      <stop offset=\"0%\" style=\"stop-color:#f43f5e;stop-opacity:0.15\" />\n"
    ++ "      <stop offset=\"100%\" style=\"stop-color:#dc2626;stop-opacity:0.25\" />\n"
    ++ "    </linearGradient>\n    \n    <!-- Background Gradients -->\n"
    ++ "    <linearGradient id=\"headerGradient\" x1=\"0%\" y1=\"0%\" x2=\"0%\" y2=\"100%\">\n"
    ++ "      <stop offset=\"0%\" style=\"stop-color:#8b5cf6;stop-opacity:0.1\" />\n"
    ++ "      <stop offset=\"100%\" style=\"stop-color:#6366f1;stop-opacity:0.05\" />\n"
    ++ "    </linearGradient>\n    \n    <!-- Shadow filters -->\n"
    ++ "    <filter id=\"cardShadow\" x=\"-20%\" y=\"-20%\" width=\"140%\" height=\"140%\">\n"
    ++ "      <feGaussianBlur in=\"SourceAlpha\" stdDeviation=\"3\"/>\n"
    ++ "      <feOffset dx=\"0\" dy=\"2\" result=\"offsetblur\"/>\n"
    ++ "      <feComponentTransfer>\n        <feFuncA type=\"linear\" slope=\"0.15\"/>\n"
    ++ "      </feComponentTransfer>\n      <feMerge>\n        <feMergeNode/>\n"
    ++ "        <feMergeNode in=\"SourceGraphic\"/>\n      </feMerge>\n    </filter>\n  </defs>\n"

/-- The background, header card, title, metadata line and energy gauge of
the part_001 template (lines 132-155). -/
def krumpHeader_part001 (env : JsEnv) (circuit : String) (shots : Nat)
    (backend : String) (avgEnergy : Rat) : String :=
  "\n  <!-- Background with subtle gradient -->\n"
    ++ "  <rect width=\"100%\" height=\"100%\" fill=\"url(#headerGradient)\"/>\n"
    ++ "  <rect width=\"100%\" height=\"100%\" fill=\"#ffffff\" opacity=\"0.95\"/>\n  \n"
    ++ "  <!-- Premium Header with glassmorphism effect -->\n"
    ++ "  <rect x=\"30\" y=\"15\" width=\"590\" height=\"90\" fill=\"#ffffff\" rx=\"12\" opacity=\"0.9\" filter=\"url(#cardShadow)\"/>\n"
    ++ "  <rect x=\"30\" y=\"15\" width=\"590\" height=\"90\" fill=\"url(#headerGradient)\" rx=\"12\" opacity=\"0.5\"/>\n  \n"
    ++ "  <text x=\"" ++ env.numStr (650 / 2)
    ++ "\" y=\"40\" text-anchor=\"middle\" font-size=\"24\" font-weight=\"700\" fill=\"#1a1a1a\">\n"
    ++ "    🎭 Krump Choreography Analysis\n  </text>\n  \n"
    ++ "  <text x=\"" ++ env.numStr (650 / 2)
    ++ "\" y=\"62\" text-anchor=\"middle\" font-size=\"11\" fill=\"#64748b\" font-weight=\"500\">\n"
    ++ "    " ++ escapeXmlS circuit ++ " • " ++ toString shots ++ " shots • "
    ++ escapeXmlS backend ++ "\n  </text>\n  \n"
    ++ "  <!-- Energy gauge visualization -->\n"
    ++ "  <g transform=\"translate(" ++ env.numStr (650 / 2 - 80) ++ ", 75)\">\n"
    ++ "    <rect x=\"0\" y=\"0\" width=\"160\" height=\"20\" fill=\"#f1f5f9\" rx=\"10\"/>\n"
    ++ "    <rect x=\"0\" y=\"0\" width=\"" ++ env.numStr (avgEnergy * 40)
    ++ "\" height=\"20\" fill=\"url(#energyGradient" ++ toString (jsRound avgEnergy)
    ++ ")\" rx=\"10\"/>\n"
    ++ "    <text x=\"80\" y=\"14\" text-anchor=\"middle\" font-size=\"10\" font-weight=\"600\" fill=\"#1e293b\">\n"
    ++ "      Avg Energy: " ++ env.toFixed avgEnergy 1 ++ " "
    ++ getEnergyEmoji (some (jsRound avgEnergy)) ++ "\n    </text>\n  </g>\n"

/-- One compact move card of the part_001 template (lines 165-215):
the card for index `i` and decoded move `move`. -/
def krumpMoveCard_part001 (env : JsEnv) (i : Nat) (move : DecodedMove) : String :=
  let x : Rat := 30 + ((i % 2 : Nat) : Rat) * 305
  let y : Rat := 35 + ((i / 2 : Nat) : Rat) * (80 + 15)
  let progressCircumference : Rat := 2 * env.piQ * 22
  let progressOffset : Rat := progressCircumference * (1 - move.probability)
  let energyColor := getEnergyColor move.energyLevel?
  let energyGrad := getEnergyGradient move.energyLevel?
  "\n    <!-- Compact Move Card " ++ toString (i + 1) ++ " -->\n"
    ++ "    <g transform=\"translate(" ++ env.numStr x ++ ", " ++ env.numStr y
    ++ ")\" filter=\"url(#cardShadow)\">\n"
    ++ "      <rect x=\"0\" y=\"0\" width=\"290\" height=\"" ++ env.numStr 80
    ++ "\" fill=\"" ++ energyGrad ++ "\" rx=\"8\" stroke=\"" ++ energyColor
    ++ "\" stroke-width=\"1.5\"/>\n"
    ++ "      <rect x=\"0\" y=\"0\" width=\"290\" height=\"" ++ env.numStr 80
    ++ "\" fill=\"#ffffff\" rx=\"8\" opacity=\"0.85\"/>\n      \n"
    ++ "      <!-- Progress circle indicator -->\n"
    ++ "      <circle cx=\"35\" cy=\"40\" r=\"24\" fill=\"none\" stroke=\"#e2e8f0\" stroke-width=\"3\"/>\n"
    ++ "      <circle cx=\"35\" cy=\"40\" r=\"22\" fill=\"none\" stroke=\"" ++ energyColor
    ++ "\" stroke-width=\"3\"\n              stroke-dasharray=\"" ++ env.numStr progressCircumference
    ++ "\"\n              stroke-dashoffset=\"" ++ env.numStr progressOffset
    ++ "\"\n              transform=\"rotate(-90 35 40)\"\n              stroke-linecap=\"round\"/>\n"
    ++ "      <text x=\"35\" y=\"45\" text-anchor=\"middle\" font-size=\"18\" fill=\"#1e293b\">"
    ++ escapeXmlJS move.emoji? ++ "</text>\n      \n"
    ++ "      <!-- Move details -->\n"
    ++ "      <text x=\"68\" y=\"22\" font-size=\"13\" font-weight=\"600\" fill=\"#1e293b\">"
    ++ escapeXmlJS move.name? ++ "</text>\n"
    ++ "      <text x=\"68\" y=\"38\" font-size=\"10\" fill=\"#64748b\" font-weight=\"500\">\n"
    ++ "        " ++ env.toFixed (move.probability * 100) 1 ++ "% • "
    ++ toString move.count ++ " hits\n      </text>\n      \n"
    ++ "      <!-- Energy mini-bars -->\n      <g transform=\"translate(68, 44)\">\n"
    ++ String.join ((List.range 4).map (fun (ei : Nat) =>
        "        \n        <rect x=\"" ++ env.numStr ((ei : Rat) * 12)
          ++ "\" y=\"0\" width=\"10\" height=\"8\" fill=\""
          ++ (if leEnergy ei move then energyColor else "#e2e8f0")
          ++ "\" rx=\"2\" opacity=\"" ++ (if leEnergy ei move then "1" else "0.3")
          ++ "\"/>\n        "))
    ++ "\n      </g>\n      \n"
    ++ "      <!-- Component indicators (compact icons) -->\n"
    ++ "      <g transform=\"translate(68, 58)\">\n"
    ++ "        <circle cx=\"5\" cy=\"5\" r=\"4\" fill=\""
    ++ (if move.jabStompB then energyColor else "#e2e8f0")
    ++ "\" opacity=\"" ++ (if move.jabStompB then "1" else "0.4") ++ "\"/>\n"
    ++ "        <text x=\"5\" y=\"8\" text-anchor=\"middle\" font-size=\"7\" fill=\"#fff\" font-weight=\"700\">S</text>\n        \n"
    ++ "        <circle cx=\"22\" cy=\"5\" r=\"4\" fill=\""
    ++ (if move.armSwingB then energyColor else "#e2e8f0")
    ++ "\" opacity=\"" ++ (if move.armSwingB then "1" else "0.4") ++ "\"/>\n"
    ++ "        <text x=\"22\" y=\"8\" text-anchor=\"middle\" font-size=\"7\" fill=\"#fff\" font-weight=\"700\">W</text>\n        \n"
    ++ "        <circle cx=\"39\" cy=\"5\" r=\"4\" fill=\""
    ++ (if move.chestPopB then energyColor else "#e2e8f0")
    ++ "\" opacity=\"" ++ (if move.chestPopB then "1" else "0.4") ++ "\"/>\n"
    ++ "        <text x=\"39\" y=\"8\" text-anchor=\"middle\" font-size=\"7\" fill=\"#fff\" font-weight=\"700\">P</text>\n"
    ++ "      </g>\n    </g>\n      "

/-- The move-breakdown section of the part_001 template (lines 157-217). -/
def krumpMoveBreakdown_part001 (env : JsEnv) (marginTop : Rat)
    (decodedMoves : List DecodedMove) : String :=
  "  \n  <!-- Move Breakdown Section -->\n"
    ++ "  <g transform=\"translate(0, " ++ env.numStr marginTop ++ ")\">\n"
    ++ "    <text x=\"" ++ env.numStr (650 / 2)
    ++ "\" y=\"10\" text-anchor=\"middle\" font-size=\"16\" font-weight=\"600\" fill=\"#1e293b\">\n"
    ++ "      MOVE BREAKDOWN\n    </text>\n"
    ++ "    <line x1=\"220\" y1=\"18\" x2=\"430\" y2=\"18\" stroke=\"#e2e8f0\" stroke-width=\"2\"/>\n    \n"
    ++ "    <!-- Two-column grid of compact move cards -->\n    "
    ++ String.join (decodedMoves.enum.map (fun ie => krumpMoveCard_part001 env ie.1 ie.2))
    ++ "\n  </g>\n"

/-- One routine bubble of the part_001 template (lines 229-245): the
bubble for index `i` in a routine of length `routineLen`. -/
def krumpRoutineBubble_part001 (env : JsEnv) (i : Nat) (move : DecodedMove)
    (routineLen : Nat) : String :=
  let x : Rat := 50 + (i : Rat) * 115
  let energyColor := getEnergyColor move.energyLevel?
  "\n    <g transform=\"translate(" ++ env.numStr x ++ ", 40)\">\n"
    ++ "      <!-- Move bubble -->\n"
    ++ "      <circle cx=\"30\" cy=\"30\" r=\"26\" fill=\"" ++ energyColor
    ++ "\" opacity=\"0.2\" stroke=\"" ++ energyColor ++ "\" stroke-width=\"2\"/>\n"
    ++ "      <text x=\"30\" y=\"32\" text-anchor=\"middle\" font-size=\"20\">"
    ++ escapeXmlJS move.emoji? ++ "</text>\n"
    ++ "      <text x=\"30\" y=\"68\" text-anchor=\"middle\" font-size=\"9\" font-weight=\"600\" fill=\"#1e293b\">"
    ++ toString (i + 1) ++ ". " ++ env.toFixed (move.probability * 100) 0 ++ "%</text>\n"
    ++ (if i + 1 < routineLen then
        "      \n      <!-- Arrow to next -->\n"
          ++ "      <path d=\"M 60 30 L 85 30\" stroke=\"#10b981\" stroke-width=\"2\" fill=\"none\"/>\n"
          ++ "      <path d=\"M 82 26 L 88 30 L 82 34\" stroke=\"#10b981\" stroke-width=\"2\" fill=\"none\" stroke-linecap=\"round\" stroke-linejoin=\"round\"/>\n      "
      else "")
    ++ "\n    </g>\n      "

/-- The suggested-routine section of the part_001 template (lines
219-247), emitted at vertical offset `y`. -/
def krumpRoutineSection_part001 (env : JsEnv) (y : Rat)
    (suggestedRoutine : List DecodedMove) : String :=
  "  \n  <!-- Suggested Routine - Horizontal Timeline -->\n"
    ++ "  <g transform=\"translate(0, " ++ env.numStr y ++ ")\">\n"
    ++ "    <text x=\"" ++ env.numStr (650 / 2)
    ++ "\" y=\"0\" text-anchor=\"middle\" font-size=\"16\" font-weight=\"600\" fill=\"#1e293b\">\n"
    ++ "      🎯 SUGGESTED ROUTINE\n    </text>\n"
    ++ "    <line x1=\"220\" y1=\"8\" x2=\"430\" y2=\"8\" stroke=\"#e2e8f0\" stroke-width=\"2\"/>\n    \n"
    ++ "    <rect x=\"30\" y=\"20\" width=\"590\" height=\"90\" fill=\"#ecfdf5\" rx=\"10\" stroke=\"#10b981\" stroke-width=\"2\" filter=\"url(#cardShadow)\"/>\n    \n"
    ++ "    <!-- Horizontal flow with arrows -->\n    "
    ++ String.join (suggestedRoutine.enum.map (fun ie =>
        krumpRoutineBubble_part001 env ie.1 ie.2 suggestedRoutine.length))
    ++ "\n  </g>\n"

/-- The tips section of the part_001 template (lines 249-261), emitted at
vertical offset `y`. -/
def krumpTipsSection_part001 (env : JsEnv) (y : Rat) : String :=
  "  \n  <!-- Choreography Tips - Compact -->\n"
    ++ "  <g transform=\"translate(0, " ++ env.numStr y ++ ")\">\n"
    ++ "    <text x=\"" ++ env.numStr (650 / 2)
    ++ "\" y=\"0\" text-anchor=\"middle\" font-size=\"16\" font-weight=\"600\" fill=\"#1e293b\">\n"
    ++ "      📝 TIPS\n    </text>\n"
    ++ "    <line x1=\"270\" y1=\"8\" x2=\"380\" y2=\"8\" stroke=\"#e2e8f0\" stroke-width=\"2\"/>\n    \n"
    ++ "    <rect x=\"30\" y=\"18\" width=\"590\" height=\"70\" fill=\"#fffbeb\" rx=\"8\" stroke=\"#f59e0b\" stroke-width=\"1.5\" filter=\"url(#cardShadow)\"/>\n    \n"
    ++ "    <text x=\"45\" y=\"38\" font-size=\"10\" fill=\"#78716c\">• Start with high-probability moves for impact</text>\n"
    ++ "    <text x=\"45\" y=\"54\" font-size=\"10\" fill=\"#78716c\">• Mix energy levels for dynamic flow</text>\n"
    ++ "    <text x=\"45\" y=\"70\" font-size=\"10\" fill=\"#78716c\">• Use low-probability moves as surprise accents</text>\n"
    ++ "  </g>\n"

/-- One donut segment with its labels from the part_001 energy
distribution (lines 272-314): segment `i` (energy level `i`) at summed
probability `prob`. -/
def krumpDonutSegment_part001 (env : JsEnv) (i : Nat) (prob : Rat) : String :=
  let startAngle : Rat := ((i : Rat) / 4) * 360 - 90
  let endAngle : Rat := startAngle + 90
  let radius : Rat := 60
  let innerRadius : Rat := 35
  let startRad : Rat := startAngle * env.piQ / 180
  let endRad : Rat := endAngle * env.piQ / 180
  let x1 := env.cosQ startRad * innerRadius
  let y1 := env.sinQ startRad * innerRadius
  let x2 := env.cosQ startRad * radius
  let y2 := env.sinQ startRad * radius
  let x3 := env.cosQ endRad * radius
  let y3 := env.sinQ endRad * radius
  let x4 := env.cosQ endRad * innerRadius
  let y4 := env.sinQ endRad * innerRadius
  let color := getEnergyColor (some (i : Int))
  let emoji := getEnergyEmoji (some (i : Int))
  let label := (["Rest", "Low", "Med", "High"].getD i "undefined")
  let labelAngle : Rat := (startAngle + 45) * env.piQ / 180
  let labelRadius : Rat := 80
  let labelX := env.cosQ labelAngle * labelRadius
  let labelY := env.sinQ labelAngle * labelRadius
  "\n      <!-- Segment " ++ toString i ++ " -->\n"
    ++ "      <path d=\"M " ++ env.numStr x1 ++ " " ++ env.numStr y1
    ++ " L " ++ env.numStr x2 ++ " " ++ env.numStr y2
    ++ " A " ++ env.numStr radius ++ " " ++ env.numStr radius ++ " 0 0 1 "
    ++ env.numStr x3 ++ " " ++ env.numStr y3
    ++ " L " ++ env.numStr x4 ++ " " ++ env.numStr y4
    ++ " A " ++ env.numStr innerRadius ++ " " ++ env.numStr innerRadius ++ " 0 0 0 "
    ++ env.numStr x1 ++ " " ++ env.numStr y1 ++ "\"\n"
    ++ "            fill=\"" ++ color ++ "\" opacity=\""
    ++ (if 0 < prob then env.numStr (8 / 10) else env.numStr (2 / 10))
    ++ "\" stroke=\"#ffffff\" stroke-width=\"2\"/>\n      \n"
    ++ "      <!-- Label -->\n"
    ++ "      <text x=\"" ++ env.numStr labelX ++ "\" y=\"" ++ env.numStr labelY
    ++ "\" text-anchor=\"middle\" font-size=\"11\" font-weight=\"600\" fill=\"#1e293b\">\n"
    ++ "        " ++ emoji ++ " " ++ label ++ "\n      </text>\n"
    ++ "      <text x=\"" ++ env.numStr labelX ++ "\" y=\"" ++ env.numStr (labelY + 14)
    ++ "\" text-anchor=\"middle\" font-size=\"10\" fill=\"#64748b\">\n"
    ++ "        " ++ env.toFixed (prob * 100) 1 ++ "%\n      </text>\n        "

/-- The energy-distribution donut section of the part_001 template (lines
263-322), emitted at vertical offset `y`. -/
def krumpEnergyDistSection_part001 (env : JsEnv) (y : Rat)
    (decodedMoves : List DecodedMove) (avgEnergy : Rat) : String :=
  "  \n  <!-- Energy Distribution - Circular/Donut Visualization -->\n"
    ++ "  <g transform=\"translate(0, " ++ env.numStr y ++ ")\">\n"
    ++ "    <text x=\"" ++ env.numStr (650 / 2)
    ++ "\" y=\"0\" text-anchor=\"middle\" font-size=\"16\" font-weight=\"600\" fill=\"#1e293b\">\n"
    ++ "      ENERGY DISTRIBUTION\n    </text>\n"
    ++ "    <line x1=\"210\" y1=\"8\" x2=\"440\" y2=\"8\" stroke=\"#e2e8f0\" stroke-width=\"2\"/>\n    \n"
    ++ "    <!-- Circular distribution with radial segments -->\n"
    ++ "    <g transform=\"translate(" ++ env.numStr (650 / 2) ++ ", 95)\">\n      "
    ++ String.join ((List.range 4).map (fun (i : Nat) =>
        krumpDonutSegment_part001 env i (energyDistQ decodedMoves i)))
    ++ "\n      \n      <!-- Center circle -->\n"
    ++ "      <circle cx=\"0\" cy=\"0\" r=\"32\" fill=\"#ffffff\" stroke=\"#e2e8f0\" stroke-width=\"2\"/>\n"
    ++ "      <text x=\"0\" y=\"-8\" text-anchor=\"middle\" font-size=\"11\" font-weight=\"600\" fill=\"#64748b\">ENERGY</text>\n"
    ++ "      <text x=\"0\" y=\"8\" text-anchor=\"middle\" font-size=\"14\" font-weight=\"700\" fill=\"#8b5cf6\">"
    ++ env.toFixed avgEnergy 1 ++ "</text>\n"
    ++ "      <text x=\"0\" y=\"20\" text-anchor=\"middle\" font-size=\"16\">"
    ++ getEnergyEmoji (some (jsRound avgEnergy)) ++ "</text>\n    </g>\n  </g>\n"

/-- The footer of the part_001 template (lines 324-328). -/
def krumpFooter_part001 (env : JsEnv) (totalHeight : Rat)
    (timestamp : String) : String :=
  "  \n  <!-- Premium Footer -->\n"
    ++ "  <text x=\"" ++ env.numStr (650 / 2) ++ "\" y=\"" ++ env.numStr (totalHeight - 20)
    ++ "\" text-anchor=\"middle\" font-size=\"9\" fill=\"#94a3b8\" font-weight=\"500\">\n"
    ++ "    Quantum Krump Platform • " ++ escapeXmlJS (some timestamp)
    ++ "\n  </text>\n</svg>"

/-- The whole part_001 `generateKrumpSVG` body (lines 50-331) after the
timestamp has been computed: input unpacking with its `||` fallbacks
(lines 51-58), decoding, average energy, layout heights (lines 75-87) and
the assembled template, with `timestamp` passed in. -/
def krumpSVGBody_part001 (env : JsEnv) (results : KrumpResults)
    (jobMetadata : Option KrumpJobMetadata) (timestamp : String) : String :=
  let measurements := results.measurements.getD []
  let probabilities := results.probabilities.getD []
  let shots := jsNumOr results.shots (jsNumOr (jobMetadata.bind (fun m => m.shots)) 0)
  let circuit := jsStrOr results.circuit
    (jsStrOr (jobMetadata.bind (fun m => m.circuit)) "krump_choreography")
  let backend := jsStrOr (jobMetadata.bind (fun m => m.backend_type)) "simulator"
  let decodedMoves := decodeKrumpResults measurements probabilities
  let suggestedRoutine := getSuggestedRoutine decodedMoves 5
  let avgEnergy := averageEnergy decodedMoves
  let marginTop : Rat := 120
  let moveRows : Rat := (jsCeil ((decodedMoves.length : Rat) / 2) : Int)
  let moveCardsHeight : Rat := moveRows * (80 + 15) + 80
  let routineHeight : Rat := 140
  let tipsHeight : Rat := 110
  let energyDistHeight : Rat := 200
  let totalHeight : Rat :=
    marginTop + moveCardsHeight + routineHeight + tipsHeight + energyDistHeight + 80
  "<?xml version=\"1.0\" encoding=\"UTF-8\"?>\n<svg width=\"" ++ env.numStr 650
    ++ "\" height=\"" ++ env.numStr totalHeight
    ++ "\" xmlns=\"http://www.w3.org/2000/svg\">\n"
    ++ krumpDefs_part001
    ++ krumpHeader_part001 env circuit shots backend avgEnergy
    ++ krumpMoveBreakdown_part001 env marginTop decodedMoves
    ++ krumpRoutineSection_part001 env (marginTop + moveCardsHeight + 20) suggestedRoutine
    ++ krumpTipsSection_part001 env (marginTop + moveCardsHeight + routineHeight + 35)
    ++ krumpEnergyDistSection_part001 env
        (marginTop + moveCardsHeight + routineHeight + tipsHeight + 50)
        decodedMoves avgEnergy
    ++ krumpFooter_part001 env totalHeight timestamp

/-- `generateKrumpSVG` of `src/unnamed/part_001` (lines 50-331): the
timestamp is the only place the wall clock can enter (line 55-57);
everything else is `krumpSVGBody_part001`. -/
def generateKrumpSVG_part001 (env : JsEnv) (now : String)
    (results : KrumpResults) (jobMetadata : Option KrumpJobMetadata) : String :=
  krumpSVGBody_part001 env results jobMetadata (timestampOf env now jobMetadata)

/-- Claim C9: rendering is deterministic.  For a fixed ambient environment
(locale formatting, float rendering, trigonometry — all fixed during a
session) and a fixed `(results, metadata)` pair in which
`metadata.created_at` is supplied (non-empty, so no field derives from the
wall clock), the output of the synchronous `generateKrumpSVG` does not
depend on the clock: calls at two different instants produce identical
documents. -/
theorem generateKrumpSVG_part001_deterministic (env : JsEnv)
    (results : KrumpResults) (md : KrumpJobMetadata) (t : String)
    (now₁ now₂ : String) (h : md.created_at = some t) (ht : t ≠ "") :
    generateKrumpSVG_part001 env now₁ results (some md)
      = generateKrumpSVG_part001 env now₂ results (some md) := by
  unfold generateKrumpSVG_part001
  have e : ∀ now, timestampOf env now (some md) = env.localeString t := by
    intro now
    simp [timestampOf, h, ht]
  rw [e now₁, e now₂]

/-- Witness for C9 at a concrete environment, payload, metadata with a
supplied `created_at`, and two different clock readings. -/
theorem generateKrumpSVG_part001_deterministic_witness :
    generateKrumpSVG_part001
        ⟨fun _ => "", fun _ _ => "", fun s => s, 3, fun _ => 0, fun _ => 0⟩
        "clock reading one" ⟨none, none, none, none⟩
        (some ⟨none, none, some "2025-01-01T00:00:00Z", none⟩)
      = generateKrumpSVG_part001
        ⟨fun _ => "", fun _ _ => "", fun s => s, 3, fun _ => 0, fun _ => 0⟩
        "clock reading two" ⟨none, none, none, none⟩
        (some ⟨none, none, some "2025-01-01T00:00:00Z", none⟩) :=
  generateKrumpSVG_part001_deterministic _ _ _ "2025-01-01T00:00:00Z"
    "clock reading one" "clock reading two" rfl (by decide)
